import Mathlib

/-!
Shallow embedding of `src/release.sh`, a bash release orchestrator run with
`set -e`.  External commands (docker, aws, pnpm) are modelled by an oracle
`World` that fixes the outcome of each external invocation; the script's
side effects are recorded as a trace of `Event`s; the frontend directory's
`.env.local` / `.env.local.backup` files are the `Fs` state.  `set -e`
semantics: the first failing command aborts the whole process with its
exit status, later commands do not run.
-/

/-- Observable actions of the script: diagnostic lines and the external
commands it invokes (docker build, ECR login, docker tag/push/rmi). -/
inductive Event where
  | info (msg : String)
  | warn (msg : String)
  | error (msg : String)
  | success (msg : String)
  | echo (line : String)
  | usage
  | buildImage (ref : String)
  | ecrLogin (registry : String)
  | tagImage (src dst : String)
  | pushImage (ref : String)
  | rmi (ref : String)
deriving DecidableEq, Repr

/-- State of the frontend directory's local configuration files:
content of `frontend/.env.local` and of `frontend/.env.local.backup`
(`none` = the file is absent). -/
structure Fs where
  envLocal : Option String
  envLocalBackup : Option String
deriving DecidableEq, Repr

/-- Oracle fixing the outcome of every external command the script may
invoke: which tools are on PATH, and whether each docker/aws invocation
succeeds. `rmiFails ref` says whether `docker rmi ref` fails (e.g. the
image is already absent). -/
structure World where
  hasDocker : Bool
  hasAws : Bool
  hasPnpm : Bool
  frontendBuildOk : Bool
  frontendLoginOk : Bool
  frontendTagOk : Bool
  frontendPushOk : Bool
  backendBuildOk : Bool
  backendLoginOk : Bool
  backendTagOk : Bool
  backendPushOk : Bool
  rmiFails : String → Bool

/-- Result of running a fragment of the script under `set -e`: the events
performed so far, the file-system state left behind, and `some code` when
the fragment aborted the process with exit status `code`. -/
structure Outcome where
  events : List Event
  fs : Fs
  exited : Option Nat
deriving Repr

/-- Sequencing under `set -e`: if the first fragment aborted, the continuation
does not run. -/
def Outcome.andThen (o : Outcome) (k : Fs → Outcome) : Outcome :=
  match o.exited with
  | some _ => o
  | none =>
    let o2 := k o.fs
    ⟨o.events ++ o2.events, o2.fs, o2.exited⟩

/-- A command that only prints (never fails). -/
def emit (fs : Fs) (e : Event) : Outcome := ⟨[e], fs, none⟩

/-- An external command that performs `e` and succeeds iff `ok`;
under `set -e` a failure aborts the process with status 1. -/
def extCmd (fs : Fs) (e : Event) (ok : Bool) : Outcome :=
  ⟨[e], fs, if ok then none else some 1⟩

/-- The script's configuration block (`FRONTEND_IMAGE_NAME`,
`BACKEND_IMAGE_NAME`, `IMAGE_TAG`, `ECR_URL`, `AWS_REGION`). -/
structure Config where
  frontendImageName : String
  backendImageName : String
  imageTag : String
  ecrUrl : String
  awsRegion : String

/-- The literal configuration values at the top of `release.sh`. -/
def defaultConfig : Config :=
  { frontendImageName := "agents/frontend"
    backendImageName := "agents/backend"
    imageTag := "latest"
    ecrUrl := "654553612832.dkr.ecr.eu-central-1.amazonaws.com"
    awsRegion := "eu-central-1" }

/-- The string `$FRONTEND_IMAGE_NAME:$IMAGE_TAG`. -/
def frontendLocalRef (c : Config) : String :=
  c.frontendImageName ++ ":" ++ c.imageTag

/-- The string `$BACKEND_IMAGE_NAME:$IMAGE_TAG`. -/
def backendLocalRef (c : Config) : String :=
  c.backendImageName ++ ":" ++ c.imageTag

/-- The string `$ECR_URL/$FRONTEND_IMAGE_NAME:$IMAGE_TAG`. -/
def frontendRemoteRef (c : Config) : String :=
  c.ecrUrl ++ "/" ++ c.frontendImageName ++ ":" ++ c.imageTag

/-- The string `$ECR_URL/$BACKEND_IMAGE_NAME:$IMAGE_TAG`. -/
def backendRemoteRef (c : Config) : String :=
  c.ecrUrl ++ "/" ++ c.backendImageName ++ ":" ++ c.imageTag

/-- Model of `check_prerequisites`: docker and aws are fatal when missing
(`exit 1`), pnpm only produces a warning. -/
def check_prerequisites (w : World) (fs : Fs) : Outcome :=
  (emit fs (Event.info "Checking prerequisites...")).andThen fun fs =>
  (if w.hasDocker then (⟨[], fs, none⟩ : Outcome)
   else ⟨[Event.error "Docker is not installed or not in PATH"], fs, some 1⟩).andThen fun fs =>
  (if w.hasAws then (⟨[], fs, none⟩ : Outcome)
   else ⟨[Event.error "AWS CLI is not installed or not in PATH"], fs, some 1⟩).andThen fun fs =>
  (if w.hasPnpm then (⟨[], fs, none⟩ : Outcome)
   else ⟨[Event.warn "pnpm not found, will use npm for frontend build"], fs, none⟩).andThen fun fs =>
  emit fs (Event.success "Prerequisites check passed")

/-- Model of `build_and_upload_frontend`: back up `.env.local` if present, docker
buildx build, ECR login, docker tag, docker push, restore `.env.local`
from the backup if a backup file exists.  (The application-build and
`.env.local`-rewrite steps in the source are commented out and hence not
part of the behaviour.)  Note that under `set -e` any failing step exits
the process, so the restore step only runs when every preceding step
succeeded. -/
def build_and_upload_frontend (c : Config) (w : World) (fs : Fs) : Outcome :=
  (emit fs (Event.info "Building and uploading frontend image...")).andThen fun fs =>
  (match fs.envLocal with
   | some content =>
       (⟨[Event.info "Backed up .env.local"],
         { fs with envLocalBackup := some content }, none⟩ : Outcome)
   | none => ⟨[], fs, none⟩).andThen fun fs =>
  (emit fs (Event.info "Building frontend Docker image...")).andThen fun fs =>
  (extCmd fs (Event.buildImage (frontendLocalRef c)) w.frontendBuildOk).andThen fun fs =>
  (emit fs (Event.info "Logging in to ECR...")).andThen fun fs =>
  (extCmd fs (Event.ecrLogin c.ecrUrl) w.frontendLoginOk).andThen fun fs =>
  (emit fs (Event.info "Tagging and pushing frontend image...")).andThen fun fs =>
  (extCmd fs (Event.tagImage (frontendLocalRef c) (frontendRemoteRef c)) w.frontendTagOk).andThen fun fs =>
  (extCmd fs (Event.pushImage (frontendRemoteRef c)) w.frontendPushOk).andThen fun fs =>
  (match fs.envLocalBackup with
   | some content =>
       (⟨[Event.info "Restored .env.local"],
         { envLocal := some content, envLocalBackup := none }, none⟩ : Outcome)
   | none => ⟨[], fs, none⟩).andThen fun fs =>
  emit fs (Event.success "Frontend image uploaded successfully")

/-- Model of `build_and_upload_backend`: docker buildx build, ECR login, docker
tag, docker push.  No `.env.local` handling. -/
def build_and_upload_backend (c : Config) (w : World) (fs : Fs) : Outcome :=
  (emit fs (Event.info "Building and uploading backend image...")).andThen fun fs =>
  (emit fs (Event.info "Building backend Docker image...")).andThen fun fs =>
  (extCmd fs (Event.buildImage (backendLocalRef c)) w.backendBuildOk).andThen fun fs =>
  (emit fs (Event.info "Ensuring ECR login...")).andThen fun fs =>
  (extCmd fs (Event.ecrLogin c.ecrUrl) w.backendLoginOk).andThen fun fs =>
  (emit fs (Event.info "Tagging and pushing backend image...")).andThen fun fs =>
  (extCmd fs (Event.tagImage (backendLocalRef c) (backendRemoteRef c)) w.backendTagOk).andThen fun fs =>
  (extCmd fs (Event.pushImage (backendRemoteRef c)) w.backendPushOk).andThen fun fs =>
  emit fs (Event.success "Backend image uploaded successfully")

/-- Model of `docker rmi ref`: attempts the removal; fails iff the world says so. -/
def docker_rmi (w : World) (fs : Fs) (ref : String) : Outcome :=
  ⟨[Event.rmi ref], fs, if w.rmiFails ref then some 1 else none⟩

/-- Model of bash `cmd || true`: the attempt happens, its failure is swallowed. -/
def orTrue (o : Outcome) : Outcome := ⟨o.events, o.fs, none⟩

/-- Model of `cleanup_local_images`: best-effort `docker rmi` of the two local and
two remote-tagged references, each with `|| true`. -/
def cleanup_local_images (c : Config) (w : World) (fs : Fs) : Outcome :=
  (emit fs (Event.info "Cleaning up local images...")).andThen fun fs =>
  (orTrue (docker_rmi w fs (frontendLocalRef c))).andThen fun fs =>
  (orTrue (docker_rmi w fs (backendLocalRef c))).andThen fun fs =>
  (orTrue (docker_rmi w fs (frontendRemoteRef c))).andThen fun fs =>
  (orTrue (docker_rmi w fs (backendRemoteRef c))).andThen fun fs =>
  emit fs (Event.success "Local images cleaned up")

/-- Model of `display_image_info`. -/
def display_image_info (c : Config) (fs : Fs) : Outcome :=
  ⟨[Event.info "Image information:",
    Event.echo ("Frontend: " ++ frontendRemoteRef c),
    Event.echo ("Backend: " ++ backendRemoteRef c),
    Event.echo ("Region: " ++ c.awsRegion)], fs, none⟩

/-- The script's `main` function: prerequisites, info, frontend, backend, cleanup. -/
def script_main (c : Config) (w : World) (fs : Fs) : Outcome :=
  (emit fs (Event.info "Starting image upload process...")).andThen fun fs =>
  (check_prerequisites w fs).andThen fun fs =>
  (display_image_info c fs).andThen fun fs =>
  (build_and_upload_frontend c w fs).andThen fun fs =>
  (build_and_upload_backend c w fs).andThen fun fs =>
  (cleanup_local_images c w fs).andThen fun fs =>
  (emit fs (Event.success "All images uploaded successfully!")).andThen fun fs =>
  emit fs (Event.info "You can now use these images in your deployment.")

/-- The whole script: `case "${1:-}" in ...`.  `arg = ""` is the
no-argument invocation. -/
def runScript (c : Config) (w : World) (fs : Fs) (arg : String) : Outcome :=
  if arg = "--frontend-only" then
    (emit fs (Event.info "Building and uploading frontend only...")).andThen fun fs =>
    (check_prerequisites w fs).andThen fun fs =>
    (build_and_upload_frontend c w fs).andThen fun fs =>
    (cleanup_local_images c w fs).andThen fun fs =>
    emit fs (Event.success "Frontend image uploaded successfully!")
  else if arg = "--backend-only" then
    (emit fs (Event.info "Building and uploading backend only...")).andThen fun fs =>
    (check_prerequisites w fs).andThen fun fs =>
    (build_and_upload_backend c w fs).andThen fun fs =>
    (cleanup_local_images c w fs).andThen fun fs =>
    emit fs (Event.success "Backend image uploaded successfully!")
  else if arg = "--help" ∨ arg = "-h" then
    ⟨[Event.usage], fs, some 0⟩
  else if arg = "" then
    script_main c w fs
  else
    ⟨[Event.error ("Unknown option: " ++ arg),
      Event.echo "Use --help for usage information"], fs, some 1⟩

/-- Process exit code: the status of an explicit abort, or 0 when the
script ran to the end. -/
def exitCode (o : Outcome) : Nat := o.exited.getD 0

/-- Calls into the build toolchain or the registry (docker build, ECR
login, docker tag, docker push). -/
def Event.isBuildOrRegistryCall : Event → Bool
  | Event.buildImage _ => true
  | Event.ecrLogin _ => true
  | Event.tagImage _ _ => true
  | Event.pushImage _ => true
  | _ => false

/-- Registry-side calls only (authenticate, tag, push). -/
def Event.isRegistryCall : Event → Bool
  | Event.ecrLogin _ => true
  | Event.tagImage _ _ => true
  | Event.pushImage _ => true
  | _ => false

/-- The image references of the `docker buildx build` invocations in a
trace, in order. -/
def buildsOf (es : List Event) : List String :=
  es.filterMap fun e =>
    match e with
    | Event.buildImage r => some r
    | _ => none

/-- The references whose removal a trace attempts, in order. -/
def rmisOf (es : List Event) : List String :=
  es.filterMap fun e =>
    match e with
    | Event.rmi r => some r
    | _ => none

/-- Number of ECR login attempts in a trace. -/
def loginCount (es : List Event) : Nat :=
  (es.filter fun e =>
    match e with
    | Event.ecrLogin _ => true
    | _ => false).length

/-- All-commands-succeed oracle. -/
def allOkWorld : World :=
  { hasDocker := true
    hasAws := true
    hasPnpm := true
    frontendBuildOk := true
    frontendLoginOk := true
    frontendTagOk := true
    frontendPushOk := true
    backendBuildOk := true
    backendLoginOk := true
    backendTagOk := true
    backendPushOk := true
    rmiFails := fun _ => false }

/-- Empty frontend directory (no `.env.local`, no backup). -/
def fs0 : Fs := ⟨none, none⟩

/-- The (local, remote) reference pairs of the `docker tag` invocations in
a trace, in order. -/
def tagsOf (es : List Event) : List (String × String) :=
  es.filterMap fun e =>
    match e with
    | Event.tagImage s d => some (s, d)
    | _ => none

/-- The remote references of the `docker push` invocations in a trace, in
order. -/
def pushesOf (es : List Event) : List String :=
  es.filterMap fun e =>
    match e with
    | Event.pushImage r => some r
    | _ => none

/-- Peeling a sequenced continuation: if the first fragment leaves the
file system at `fs0` and the continuation started at `fs0` preserves the
configuration file, the whole sequence preserves it. -/
theorem Outcome.andThen_envLocal_of (o : Outcome) (k : Fs → Outcome) (fs0 : Fs)
    (ho : o.fs = fs0) (hk : (k fs0).fs.envLocal = fs0.envLocal) :
    (o.andThen k).fs.envLocal = fs0.envLocal := by
  unfold Outcome.andThen
  cases h : o.exited
  · simpa [ho] using hk
  · simp [ho]

/-- If the continuation preserves the configuration file from every start
state, sequencing preserves whatever the first fragment left there. -/
theorem Outcome.andThen_envLocal_all (o : Outcome) (k : Fs → Outcome)
    (hk : ∀ g, (k g).fs.envLocal = g.envLocal) :
    (o.andThen k).fs.envLocal = o.fs.envLocal := by
  unfold Outcome.andThen
  cases h : o.exited
  · simp [hk]
  · simp

/-- An event of the first fragment is an event of the sequence. -/
theorem Outcome.andThen_mem_events (o : Outcome) (k : Fs → Outcome) (e : Event)
    (he : e ∈ o.events) : e ∈ (o.andThen k).events := by
  unfold Outcome.andThen
  cases h : o.exited
  · simp [he]
  · simpa using he

/-- The prerequisite check never touches the file system. -/
theorem check_prerequisites_fs (w : World) (fs : Fs) :
    (check_prerequisites w fs).fs = fs := by
  cases h1 : w.hasDocker <;> cases h2 : w.hasAws <;> cases h3 : w.hasPnpm <;>
    simp [check_prerequisites, emit, Outcome.andThen, h1, h2, h3]

/-- The backend workflow never touches the file system. -/
theorem build_and_upload_backend_fs (c : Config) (w : World) (fs : Fs) :
    (build_and_upload_backend c w fs).fs = fs := by
  cases h1 : w.backendBuildOk <;> cases h2 : w.backendLoginOk <;>
    cases h3 : w.backendTagOk <;> cases h4 : w.backendPushOk <;>
    simp [build_and_upload_backend, emit, extCmd, Outcome.andThen, h1, h2, h3, h4]

/-- Cleanup never touches the file system. -/
theorem cleanup_local_images_fs (c : Config) (w : World) (fs : Fs) :
    (cleanup_local_images c w fs).fs = fs := by
  simp [cleanup_local_images, emit, orTrue, docker_rmi, Outcome.andThen]

/-- When no stale backup file is present beforehand, the frontend workflow
leaves the `.env.local` content unchanged on every path, succeeding or
aborting. -/
theorem build_and_upload_frontend_envLocal (c : Config) (w : World) (fs : Fs)
    (h : fs.envLocalBackup = none) :
    (build_and_upload_frontend c w fs).fs.envLocal = fs.envLocal := by
  obtain ⟨el, eb⟩ := fs
  subst h
  cases el <;> cases h1 : w.frontendBuildOk <;> cases h2 : w.frontendLoginOk <;>
    cases h3 : w.frontendTagOk <;> cases h4 : w.frontendPushOk <;>
    simp [build_and_upload_frontend, emit, extCmd, Outcome.andThen, h1, h2, h3, h4]

/-- C1. For every pre-existing state of `frontend/.env.local` (content
present or file absent, with no stale backup file lying around), after the
script finishes or aborts — under any invocation argument and any outcome
of the wrapped build/login/tag/push steps — the file's content exactly
equals its pre-call content. -/
theorem envLocal_round_trip (c : Config) (w : World) (fs : Fs) (arg : String)
    (h : fs.envLocalBackup = none) :
    (runScript c w fs arg).fs.envLocal = fs.envLocal := by
  unfold runScript
  split_ifs with h1 h2 h3 h4
  · -- frontend-only
    refine Outcome.andThen_envLocal_of _ _ fs rfl ?_
    refine Outcome.andThen_envLocal_of _ _ fs (check_prerequisites_fs w fs) ?_
    have hrest : ∀ g, ((cleanup_local_images c w g).andThen fun e =>
        emit e (Event.success "Frontend image uploaded successfully!")).fs.envLocal
        = g.envLocal := fun g =>
      Outcome.andThen_envLocal_of _ _ g (cleanup_local_images_fs c w g) rfl
    rw [Outcome.andThen_envLocal_all _ _ hrest]
    exact build_and_upload_frontend_envLocal c w fs h
  · -- backend-only
    refine Outcome.andThen_envLocal_of _ _ fs rfl ?_
    refine Outcome.andThen_envLocal_of _ _ fs (check_prerequisites_fs w fs) ?_
    refine Outcome.andThen_envLocal_of _ _ fs (build_and_upload_backend_fs c w fs) ?_
    exact Outcome.andThen_envLocal_of _ _ fs (cleanup_local_images_fs c w fs) rfl
  · rfl
  · -- no-argument mode
    unfold script_main
    refine Outcome.andThen_envLocal_of _ _ fs rfl ?_
    refine Outcome.andThen_envLocal_of _ _ fs (check_prerequisites_fs w fs) ?_
    refine Outcome.andThen_envLocal_of _ _ fs rfl ?_
    have hrest : ∀ g, ((build_and_upload_backend c w g).andThen fun b =>
        (cleanup_local_images c w b).andThen fun d =>
        (emit d (Event.success "All images uploaded successfully!")).andThen fun e =>
        emit e (Event.info "You can now use these images in your deployment.")).fs.envLocal
        = g.envLocal := fun g => by
      refine Outcome.andThen_envLocal_of _ _ g (build_and_upload_backend_fs c w g) ?_
      refine Outcome.andThen_envLocal_of _ _ g (cleanup_local_images_fs c w g) ?_
      exact Outcome.andThen_envLocal_of _ _ g rfl rfl
    rw [Outcome.andThen_envLocal_all _ _ hrest]
    exact build_and_upload_frontend_envLocal c w fs h
  · rfl

/-- Witness for C1: a present configuration file survives a full
no-argument release, and an absent one stays absent through a failing
frontend-only release. -/
theorem envLocal_round_trip_witness :
    (runScript defaultConfig allOkWorld ⟨some "VITE_A=1", none⟩ "").fs.envLocal
      = some "VITE_A=1" ∧
    (runScript defaultConfig { allOkWorld with frontendBuildOk := false }
      fs0 "--frontend-only").fs.envLocal = none :=
  ⟨envLocal_round_trip defaultConfig allOkWorld ⟨some "VITE_A=1", none⟩ "" rfl,
   envLocal_round_trip defaultConfig { allOkWorld with frontendBuildOk := false }
     fs0 "--frontend-only" rfl⟩

/-- A sequence whose first fragment aborted is just that fragment. -/
theorem Outcome.andThen_of_exited (o : Outcome) (k : Fs → Outcome) (n : Nat)
    (h : o.exited = some n) : o.andThen k = o := by
  unfold Outcome.andThen
  rw [h]

/-- A diagnostic line never aborts; sequencing it just prepends the line. -/
theorem emit_andThen (fs : Fs) (i : Event) (k : Fs → Outcome) :
    (emit fs i).andThen k = ⟨i :: (k fs).events, (k fs).fs, (k fs).exited⟩ := by
  simp [emit, Outcome.andThen]

/-- The no-argument invocation takes the `""` branch of the `case`. -/
theorem runScript_noarg (c : Config) (w : World) (fs : Fs) :
    runScript c w fs "" = script_main c w fs := rfl

/-- Dispatch of `--frontend-only`. -/
theorem runScript_frontendOnly (c : Config) (w : World) (fs : Fs) :
    runScript c w fs "--frontend-only" =
    ((emit fs (Event.info "Building and uploading frontend only...")).andThen fun fs =>
     (check_prerequisites w fs).andThen fun fs =>
     (build_and_upload_frontend c w fs).andThen fun fs =>
     (cleanup_local_images c w fs).andThen fun fs =>
     emit fs (Event.success "Frontend image uploaded successfully!")) := rfl

/-- Dispatch of `--backend-only`. -/
theorem runScript_backendOnly (c : Config) (w : World) (fs : Fs) :
    runScript c w fs "--backend-only" =
    ((emit fs (Event.info "Building and uploading backend only...")).andThen fun fs =>
     (check_prerequisites w fs).andThen fun fs =>
     (build_and_upload_backend c w fs).andThen fun fs =>
     (cleanup_local_images c w fs).andThen fun fs =>
     emit fs (Event.success "Backend image uploaded successfully!")) := rfl

/-- Reduction of sequencing when the first fragment is a literal
non-aborting outcome. -/
theorem andThen_mk_none (es : List Event) (g : Fs) (k : Fs → Outcome) :
    (Outcome.mk es g none).andThen k
      = ⟨es ++ (k g).events, (k g).fs, (k g).exited⟩ := rfl

/-- Reduction of sequencing when the first fragment is a literal aborted
outcome. -/
theorem andThen_mk_some (es : List Event) (g : Fs) (n : Nat) (k : Fs → Outcome) :
    (Outcome.mk es g (some n)).andThen k = ⟨es, g, some n⟩ := rfl

/-- Dispatch of an argument none of the `case` patterns match. -/
theorem runScript_unknown (c : Config) (w : World) (fs : Fs) (a : String)
    (h1 : a ≠ "--frontend-only") (h2 : a ≠ "--backend-only")
    (h3 : a ≠ "--help") (h4 : a ≠ "-h") (h5 : a ≠ "") :
    runScript c w fs a =
    ⟨[Event.error ("Unknown option: " ++ a),
      Event.echo "Use --help for usage information"], fs, some 1⟩ := by
  unfold runScript
  rw [if_neg h1, if_neg h2, if_neg (not_or.mpr ⟨h3, h4⟩), if_neg h5]

/-- C2 counterexample: in the no-argument (`all`) mode, when everything
succeeds except the frontend docker build, the process aborts with a
non-zero status and the backend workflow is never attempted — the only
build invocation in the trace is the frontend one. -/
theorem all_mode_counterexample :
    (runScript defaultConfig { allOkWorld with frontendBuildOk := false }
      fs0 "").exited = some 1 ∧
    buildsOf (runScript defaultConfig { allOkWorld with frontendBuildOk := false }
      fs0 "").events = [frontendLocalRef defaultConfig] :=
  ⟨rfl, rfl⟩

/-- C2 amended: in the no-argument (`all`) mode, when both tools are
present the frontend workflow runs first; if it fully succeeds the backend
build is attempted next (exactly two builds, frontend then backend); but a
frontend build failure aborts the run under `set -e`, so the backend
workflow is never attempted. -/
theorem all_mode_sequencing (c : Config) (w : World) (fs : Fs)
    (hd : w.hasDocker = true) (ha : w.hasAws = true) :
    (w.frontendBuildOk = true → w.frontendLoginOk = true →
     w.frontendTagOk = true → w.frontendPushOk = true →
      buildsOf (runScript c w fs "").events
        = [frontendLocalRef c, backendLocalRef c]) ∧
    (w.frontendBuildOk = false →
      (runScript c w fs "").exited = some 1 ∧
      buildsOf (runScript c w fs "").events = [frontendLocalRef c]) := by
  rw [runScript_noarg]
  obtain ⟨wd, wa, wp, g1, g2, g3, g4, k1, k2, k3, k4, rf⟩ := w
  obtain ⟨el, eb⟩ := fs
  have hd' : wd = true := hd
  have ha' : wa = true := ha
  subst hd' ha'
  constructor
  · intro f1 f2 f3 f4
    have e1 : g1 = true := f1
    have e2 : g2 = true := f2
    have e3 : g3 = true := f3
    have e4 : g4 = true := f4
    subst e1 e2 e3 e4
    cases wp <;> cases el <;> cases eb <;>
      cases k1 <;> cases k2 <;> cases k3 <;> cases k4 <;> rfl
  · intro hfb
    have e1 : g1 = false := hfb
    subst e1
    cases wp <;> cases el <;> exact ⟨rfl, rfl⟩

/-- Witness for C2 amended: with every command succeeding, the
no-argument run builds frontend then backend, in that order. -/
theorem all_mode_sequencing_witness :
    buildsOf (runScript defaultConfig allOkWorld fs0 "").events
      = [frontendLocalRef defaultConfig, backendLocalRef defaultConfig] :=
  (all_mode_sequencing defaultConfig allOkWorld fs0 rfl rfl).1 rfl rfl rfl rfl

/-- Dispatch of `--help`. -/
theorem runScript_help (c : Config) (w : World) (fs : Fs) :
    runScript c w fs "--help" = ⟨[Event.usage], fs, some 0⟩ := rfl

/-- Dispatch of `-h`. -/
theorem runScript_dashH (c : Config) (w : World) (fs : Fs) :
    runScript c w fs "-h" = ⟨[Event.usage], fs, some 0⟩ := rfl

/-- C3. If the container-build tool (docker) or the registry CLI (aws) is
missing, then whatever the argument, the trace holds no build, login, tag
or push call, and each of the three releasing modes aborts with exit
status 1. -/
theorem prereq_gate (c : Config) (w : World) (fs : Fs)
    (h : w.hasDocker = false ∨ w.hasAws = false) :
    (∀ arg, ((runScript c w fs arg).events.all
      fun e => !e.isBuildOrRegistryCall) = true) ∧
    (runScript c w fs "").exited = some 1 ∧
    (runScript c w fs "--frontend-only").exited = some 1 ∧
    (runScript c w fs "--backend-only").exited = some 1 := by
  have hc : ∀ g : Fs, (check_prerequisites w g).exited = some 1 ∧
      ((check_prerequisites w g).events.all
        fun e => !e.isBuildOrRegistryCall) = true := by
    intro g
    rcases h with hd | ha
    · constructor <;>
        simp [check_prerequisites, emit, andThen_mk_none, andThen_mk_some, hd,
          Event.isBuildOrRegistryCall]
    · cases hdd : w.hasDocker <;> constructor <;>
        simp [check_prerequisites, emit, andThen_mk_none, andThen_mk_some,
          hdd, ha, Event.isBuildOrRegistryCall]
  have hcol : ∀ (g : Fs) (k : Fs → Outcome),
      (check_prerequisites w g).andThen k = check_prerequisites w g :=
    fun g k => Outcome.andThen_of_exited _ _ 1 (hc g).1
  refine ⟨fun arg => ?_, ?_, ?_, ?_⟩
  · by_cases a1 : arg = "--frontend-only"
    · subst a1
      simp only [runScript_frontendOnly, emit_andThen, hcol]
      simpa [Event.isBuildOrRegistryCall] using (hc fs).2
    · by_cases a2 : arg = "--backend-only"
      · subst a2
        simp only [runScript_backendOnly, emit_andThen, hcol]
        simpa [Event.isBuildOrRegistryCall] using (hc fs).2
      · by_cases a3 : arg = "--help"
        · subst a3
          rw [runScript_help]
          rfl
        · by_cases a4 : arg = "-h"
          · subst a4
            rw [runScript_dashH]
            rfl
          · by_cases a5 : arg = ""
            · subst a5
              rw [runScript_noarg]
              simp only [script_main, emit_andThen, hcol]
              simpa [Event.isBuildOrRegistryCall] using (hc fs).2
            · rw [runScript_unknown c w fs arg a1 a2 a3 a4 a5]
              rfl
  · rw [runScript_noarg]
    simp [script_main, emit_andThen, hcol, (hc fs).1]
  · simp [runScript_frontendOnly, emit_andThen, hcol, (hc fs).1]
  · simp [runScript_backendOnly, emit_andThen, hcol, (hc fs).1]

/-- Witness for C3: with docker missing, the no-argument run aborts with
status 1 and records no build or registry call. -/
theorem prereq_gate_witness :
    (((runScript defaultConfig { allOkWorld with hasDocker := false } fs0 "").events.all
      fun e => !e.isBuildOrRegistryCall) = true) ∧
    (runScript defaultConfig { allOkWorld with hasDocker := false } fs0 "").exited
      = some 1 :=
  ⟨(prereq_gate defaultConfig { allOkWorld with hasDocker := false } fs0
      (Or.inl rfl)).1 "",
   (prereq_gate defaultConfig { allOkWorld with hasDocker := false } fs0
      (Or.inl rfl)).2.1⟩

/-- C4. In each component's workflow, if the docker build fails, no
registry call (ECR login, docker tag, docker push) appears in that
workflow's trace: `set -e` short-circuits at the failing build. -/
theorem build_short_circuit (c : Config) (w : World) (fs : Fs) :
    (w.frontendBuildOk = false →
      ((build_and_upload_frontend c w fs).events.all
        fun e => !e.isRegistryCall) = true) ∧
    (w.backendBuildOk = false →
      ((build_and_upload_backend c w fs).events.all
        fun e => !e.isRegistryCall) = true) := by
  constructor
  · intro hf
    obtain ⟨el, eb⟩ := fs
    cases el <;>
      simp [build_and_upload_frontend, emit, extCmd,
        andThen_mk_none, andThen_mk_some, hf, Event.isRegistryCall]
  · intro hb
    simp [build_and_upload_backend, emit, extCmd,
      andThen_mk_none, andThen_mk_some, hb, Event.isRegistryCall]

/-- Witness for C4: with both docker builds failing, neither workflow's
trace holds a registry call. -/
theorem build_short_circuit_witness :
    (((build_and_upload_frontend defaultConfig
        { allOkWorld with frontendBuildOk := false, backendBuildOk := false }
        fs0).events.all fun e => !e.isRegistryCall) = true) ∧
    (((build_and_upload_backend defaultConfig
        { allOkWorld with frontendBuildOk := false, backendBuildOk := false }
        fs0).events.all fun e => !e.isRegistryCall) = true) :=
  ⟨(build_short_circuit defaultConfig
      { allOkWorld with frontendBuildOk := false, backendBuildOk := false }
      fs0).1 rfl,
   (build_short_circuit defaultConfig
      { allOkWorld with frontendBuildOk := false, backendBuildOk := false }
      fs0).2 rfl⟩

/-- C5. `--help` and `-h` print usage and exit 0 with no build or push
calls; any unrecognized argument prints a diagnostic naming it and exits
1, with no build or push calls. -/
theorem cli_dispatch (c : Config) (w : World) (fs : Fs) :
    exitCode (runScript c w fs "--help") = 0 ∧
    (runScript c w fs "--help").events = [Event.usage] ∧
    exitCode (runScript c w fs "-h") = 0 ∧
    (runScript c w fs "-h").events = [Event.usage] ∧
    ∀ a, a ≠ "--frontend-only" → a ≠ "--backend-only" →
      a ≠ "--help" → a ≠ "-h" → a ≠ "" →
      exitCode (runScript c w fs a) = 1 ∧
      (runScript c w fs a).events =
        [Event.error ("Unknown option: " ++ a),
         Event.echo "Use --help for usage information"] ∧
      ((runScript c w fs a).events.all fun e => !e.isBuildOrRegistryCall) = true := by
  refine ⟨rfl, rfl, rfl, rfl, fun a h1 h2 h3 h4 h5 => ?_⟩
  rw [runScript_unknown c w fs a h1 h2 h3 h4 h5]
  exact ⟨rfl, rfl, rfl⟩

/-- Witness for C5: `--bogus` exits 1 with a diagnostic naming it and no
build or push calls. -/
theorem cli_dispatch_witness :
    exitCode (runScript defaultConfig allOkWorld fs0 "--bogus") = 1 ∧
    (runScript defaultConfig allOkWorld fs0 "--bogus").events =
      [Event.error ("Unknown option: " ++ "--bogus"),
       Event.echo "Use --help for usage information"] ∧
    ((runScript defaultConfig allOkWorld fs0 "--bogus").events.all
      fun e => !e.isBuildOrRegistryCall) = true :=
  (cli_dispatch defaultConfig allOkWorld fs0).2.2.2.2 "--bogus"
    (by decide) (by decide) (by decide) (by decide) (by decide)

/-- C6. In a no-argument run in which every external command succeeds, the
process exits with code 0, and each component's image is tagged and pushed
with the remote reference formed exactly as `registryUrl/imageName:imageTag`. -/
theorem success_run (c : Config) (w : World) (fs : Fs)
    (hd : w.hasDocker = true) (ha : w.hasAws = true)
    (f1 : w.frontendBuildOk = true) (f2 : w.frontendLoginOk = true)
    (f3 : w.frontendTagOk = true) (f4 : w.frontendPushOk = true)
    (b1 : w.backendBuildOk = true) (b2 : w.backendLoginOk = true)
    (b3 : w.backendTagOk = true) (b4 : w.backendPushOk = true) :
    exitCode (runScript c w fs "") = 0 ∧
    tagsOf (runScript c w fs "").events =
      [(c.frontendImageName ++ ":" ++ c.imageTag,
        c.ecrUrl ++ "/" ++ c.frontendImageName ++ ":" ++ c.imageTag),
       (c.backendImageName ++ ":" ++ c.imageTag,
        c.ecrUrl ++ "/" ++ c.backendImageName ++ ":" ++ c.imageTag)] ∧
    pushesOf (runScript c w fs "").events =
      [c.ecrUrl ++ "/" ++ c.frontendImageName ++ ":" ++ c.imageTag,
       c.ecrUrl ++ "/" ++ c.backendImageName ++ ":" ++ c.imageTag] := by
  obtain ⟨wd, wa, wp, g1, g2, g3, g4, k1, k2, k3, k4, rf⟩ := w
  obtain ⟨el, eb⟩ := fs
  have hd' : wd = true := hd
  have ha' : wa = true := ha
  have e1 : g1 = true := f1
  have e2 : g2 = true := f2
  have e3 : g3 = true := f3
  have e4 : g4 = true := f4
  have c1 : k1 = true := b1
  have c2 : k2 = true := b2
  have c3 : k3 = true := b3
  have c4 : k4 = true := b4
  subst hd' ha' e1 e2 e3 e4 c1 c2 c3 c4
  cases wp <;> cases el <;> cases eb <;> exact ⟨rfl, rfl, rfl⟩

/-- Witness for C6: with the script's own configuration and every command
succeeding, the no-argument run exits 0 and tags/pushes both remote
references. -/
theorem success_run_witness :
    exitCode (runScript defaultConfig allOkWorld fs0 "") = 0 ∧
    tagsOf (runScript defaultConfig allOkWorld fs0 "").events =
      [(defaultConfig.frontendImageName ++ ":" ++ defaultConfig.imageTag,
        defaultConfig.ecrUrl ++ "/" ++ defaultConfig.frontendImageName ++ ":"
          ++ defaultConfig.imageTag),
       (defaultConfig.backendImageName ++ ":" ++ defaultConfig.imageTag,
        defaultConfig.ecrUrl ++ "/" ++ defaultConfig.backendImageName ++ ":"
          ++ defaultConfig.imageTag)] ∧
    pushesOf (runScript defaultConfig allOkWorld fs0 "").events =
      [defaultConfig.ecrUrl ++ "/" ++ defaultConfig.frontendImageName ++ ":"
        ++ defaultConfig.imageTag,
       defaultConfig.ecrUrl ++ "/" ++ defaultConfig.backendImageName ++ ":"
        ++ defaultConfig.imageTag] :=
  success_run defaultConfig allOkWorld fs0 rfl rfl rfl rfl rfl rfl rfl rfl rfl rfl

/-- C7. Cleanup is strictly best-effort: the cleanup stage never aborts
the process, and the entire run's outcome (trace, final file-system state
and exit status) is unchanged under any assignment of success or failure
to the individual `docker rmi` removals. -/
theorem cleanup_best_effort (c : Config) (w : World) (fs : Fs) (arg : String)
    (f g : String → Bool) :
    (cleanup_local_images c w fs).exited = none ∧
    runScript c { w with rmiFails := f } fs arg
      = runScript c { w with rmiFails := g } fs arg :=
  ⟨rfl, rfl⟩

/-- C8 counterexample: with every command succeeding except the backend's
ECR login, the no-argument run pushes the frontend image (so the first
component's authentication succeeded), still performs a second login
attempt for the backend, and aborts with a non-zero status there — the
successful first login did not shield the second component. -/
theorem auth_not_cached_counterexample :
    (runScript defaultConfig { allOkWorld with backendLoginOk := false }
      fs0 "").exited = some 1 ∧
    buildsOf (runScript defaultConfig { allOkWorld with backendLoginOk := false }
      fs0 "").events = [frontendLocalRef defaultConfig, backendLocalRef defaultConfig] ∧
    pushesOf (runScript defaultConfig { allOkWorld with backendLoginOk := false }
      fs0 "").events = [frontendRemoteRef defaultConfig] ∧
    loginCount (runScript defaultConfig { allOkWorld with backendLoginOk := false }
      fs0 "").events = 2 :=
  ⟨rfl, rfl, rfl, rfl⟩

/-- C8 amended: registry authentication is not cached across components.
In a no-argument run whose frontend workflow fully succeeds and whose
backend build succeeds, the backend workflow performs its own second ECR
login (two login attempts in the trace), and a failure of that second
login aborts the run with a non-zero status. -/
theorem auth_not_cached (c : Config) (w : World) (fs : Fs)
    (hd : w.hasDocker = true) (ha : w.hasAws = true)
    (f1 : w.frontendBuildOk = true) (f2 : w.frontendLoginOk = true)
    (f3 : w.frontendTagOk = true) (f4 : w.frontendPushOk = true)
    (b1 : w.backendBuildOk = true) :
    loginCount (runScript c w fs "").events = 2 ∧
    (w.backendLoginOk = false → (runScript c w fs "").exited = some 1) := by
  rw [runScript_noarg]
  obtain ⟨wd, wa, wp, g1, g2, g3, g4, k1, k2, k3, k4, rf⟩ := w
  obtain ⟨el, eb⟩ := fs
  have hd' : wd = true := hd
  have ha' : wa = true := ha
  have e1 : g1 = true := f1
  have e2 : g2 = true := f2
  have e3 : g3 = true := f3
  have e4 : g4 = true := f4
  have c1 : k1 = true := b1
  subst hd' ha' e1 e2 e3 e4 c1
  constructor
  · cases wp <;> cases el <;> cases eb <;>
      cases k2 <;> cases k3 <;> cases k4 <;> rfl
  · intro h2
    have c2 : k2 = false := h2
    subst c2
    cases wp <;> cases el <;> cases eb <;> rfl

/-- Witness for C8 amended: at the concrete failing-backend-login world,
the run performs two logins and aborts with status 1. -/
theorem auth_not_cached_witness :
    loginCount (runScript defaultConfig { allOkWorld with backendLoginOk := false }
      fs0 "").events = 2 ∧
    (runScript defaultConfig { allOkWorld with backendLoginOk := false }
      fs0 "").exited = some 1 :=
  ⟨(auth_not_cached defaultConfig { allOkWorld with backendLoginOk := false }
      fs0 rfl rfl rfl rfl rfl rfl rfl).1,
   (auth_not_cached defaultConfig { allOkWorld with backendLoginOk := false }
      fs0 rfl rfl rfl rfl rfl rfl rfl).2 rfl⟩

/-- An event of the continuation of a non-aborting fragment is an event of
the sequence. -/
theorem Outcome.andThen_mem_events_right (o : Outcome) (k : Fs → Outcome)
    (e : Event) (h : o.exited = none) (he : e ∈ (k o.fs).events) :
    e ∈ (o.andThen k).events := by
  unfold Outcome.andThen
  rw [h]
  simp [he]

/-- Whatever the command outcomes, the frontend workflow always reaches
and attempts the frontend docker build (the build invocation is recorded
even when the build itself fails). -/
theorem frontend_build_attempted (c : Config) (w : World) (fs : Fs) :
    Event.buildImage (frontendLocalRef c) ∈ (build_and_upload_frontend c w fs).events := by
  obtain ⟨el, eb⟩ := fs
  unfold build_and_upload_frontend
  cases el <;>
  · refine Outcome.andThen_mem_events_right _ _ _ rfl ?_
    refine Outcome.andThen_mem_events_right _ _ _ rfl ?_
    refine Outcome.andThen_mem_events_right _ _ _ rfl ?_
    refine Outcome.andThen_mem_events _ _ _ ?_
    simp [extCmd]

/-- C9. With docker and aws present but pnpm missing, the prerequisite
check emits the pnpm warning yet passes (it does not abort), and the
no-argument run proceeds to the frontend build step. -/
theorem pnpm_optional (c : Config) (w : World) (fs : Fs)
    (hd : w.hasDocker = true) (ha : w.hasAws = true) (hp : w.hasPnpm = false) :
    (check_prerequisites w fs).exited = none ∧
    Event.warn "pnpm not found, will use npm for frontend build"
      ∈ (check_prerequisites w fs).events ∧
    Event.buildImage (frontendLocalRef c) ∈ (runScript c w fs "").events := by
  have hcheck : ∀ g : Fs, check_prerequisites w g =
      ⟨[Event.info "Checking prerequisites...",
        Event.warn "pnpm not found, will use npm for frontend build",
        Event.success "Prerequisites check passed"], g, none⟩ := by
    intro g
    simp [check_prerequisites, emit, andThen_mk_none, hd, ha, hp]
  refine ⟨by rw [hcheck fs], by rw [hcheck fs]; simp, ?_⟩
  rw [runScript_noarg]
  unfold script_main
  refine Outcome.andThen_mem_events_right _ _ _ rfl ?_
  refine Outcome.andThen_mem_events_right _ _ _ (by rw [hcheck]) ?_
  refine Outcome.andThen_mem_events_right _ _ _ rfl ?_
  exact Outcome.andThen_mem_events _ _ _ (frontend_build_attempted c w _)

/-- Witness for C9: pnpm missing at the concrete configuration — the
check passes with the warning and the frontend build is attempted. -/
theorem pnpm_optional_witness :
    (check_prerequisites { allOkWorld with hasPnpm := false } fs0).exited = none ∧
    Event.warn "pnpm not found, will use npm for frontend build"
      ∈ (check_prerequisites { allOkWorld with hasPnpm := false } fs0).events ∧
    Event.buildImage (frontendLocalRef defaultConfig)
      ∈ (runScript defaultConfig { allOkWorld with hasPnpm := false } fs0 "").events :=
  pnpm_optional defaultConfig { allOkWorld with hasPnpm := false } fs0 rfl rfl rfl

/-- C10. In each of the three releasing modes, when the run reaches the
cleanup stage, cleanup attempts removal of the same fixed set of four
references — both components' local tags and both components' remote
tags — regardless of which components that mode built; and the cleanup
stage by itself always attempts exactly these four. -/
theorem cleanup_fixed_set (c : Config) (w : World) (fs : Fs)
    (hd : w.hasDocker = true) (ha : w.hasAws = true)
    (f1 : w.frontendBuildOk = true) (f2 : w.frontendLoginOk = true)
    (f3 : w.frontendTagOk = true) (f4 : w.frontendPushOk = true)
    (b1 : w.backendBuildOk = true) (b2 : w.backendLoginOk = true)
    (b3 : w.backendTagOk = true) (b4 : w.backendPushOk = true) :
    rmisOf (runScript c w fs "").events =
      [frontendLocalRef c, backendLocalRef c,
       frontendRemoteRef c, backendRemoteRef c] ∧
    rmisOf (runScript c w fs "--frontend-only").events =
      [frontendLocalRef c, backendLocalRef c,
       frontendRemoteRef c, backendRemoteRef c] ∧
    rmisOf (runScript c w fs "--backend-only").events =
      [frontendLocalRef c, backendLocalRef c,
       frontendRemoteRef c, backendRemoteRef c] ∧
    rmisOf (cleanup_local_images c w fs).events =
      [frontendLocalRef c, backendLocalRef c,
       frontendRemoteRef c, backendRemoteRef c] := by
  obtain ⟨wd, wa, wp, g1, g2, g3, g4, k1, k2, k3, k4, rf⟩ := w
  obtain ⟨el, eb⟩ := fs
  have hd' : wd = true := hd
  have ha' : wa = true := ha
  have e1 : g1 = true := f1
  have e2 : g2 = true := f2
  have e3 : g3 = true := f3
  have e4 : g4 = true := f4
  have c1 : k1 = true := b1
  have c2 : k2 = true := b2
  have c3 : k3 = true := b3
  have c4 : k4 = true := b4
  subst hd' ha' e1 e2 e3 e4 c1 c2 c3 c4
  cases wp <;> cases el <;> cases eb <;> exact ⟨rfl, rfl, rfl, rfl⟩

/-- Witness for C10: at the concrete configuration with every command
succeeding, all three modes attempt removal of exactly the four fixed
references. -/
theorem cleanup_fixed_set_witness :
    rmisOf (runScript defaultConfig allOkWorld fs0 "").events =
      [frontendLocalRef defaultConfig, backendLocalRef defaultConfig,
       frontendRemoteRef defaultConfig, backendRemoteRef defaultConfig] ∧
    rmisOf (runScript defaultConfig allOkWorld fs0 "--frontend-only").events =
      [frontendLocalRef defaultConfig, backendLocalRef defaultConfig,
       frontendRemoteRef defaultConfig, backendRemoteRef defaultConfig] ∧
    rmisOf (runScript defaultConfig allOkWorld fs0 "--backend-only").events =
      [frontendLocalRef defaultConfig, backendLocalRef defaultConfig,
       frontendRemoteRef defaultConfig, backendRemoteRef defaultConfig] ∧
    rmisOf (cleanup_local_images defaultConfig allOkWorld fs0).events =
      [frontendLocalRef defaultConfig, backendLocalRef defaultConfig,
       frontendRemoteRef defaultConfig, backendRemoteRef defaultConfig] :=
  cleanup_fixed_set defaultConfig allOkWorld fs0 rfl rfl rfl rfl rfl rfl rfl rfl rfl rfl
